import Mathlib

/-!
Verification of the vtracer-gui application (src/vtracer-gui.py): a shallow
embedding of the conversion worker, the parameter panel and the main-window
state transitions, with theorems settling the specified properties.

GUI plumbing (widget layout, dialogs, styling) is out of scope; the embedding
covers the state and the pure logic of the handlers. Fallible external steps
(file read, library conversion, save-dialog choice, file write) are passed in
as explicit outcomes, so every path of the Python code is represented.
-/

/-- Events a ConversionWorker emits: progress ticks and the two terminal
signals (finished with the SVG string, or error with a message). -/
inductive WorkerEvent where
  | progress : Nat → WorkerEvent
  | finished : String → WorkerEvent
  | error : String → WorkerEvent
deriving DecidableEq

/-- A terminal event is a finished or an error signal (not a progress tick). -/
def isTerminalEvent : WorkerEvent → Bool
  | WorkerEvent.progress _ => false
  | WorkerEvent.finished _ => true
  | WorkerEvent.error _ => true

/-- The parameter dictionary built by ParameterControlWidget.get_parameters and
passed as keyword arguments to vtracer.convert_raw_image_to_svg. Python ints
are modelled as Int; the float length_threshold as a rational. -/
structure Params where
  colormode : String
  hierarchical : String
  mode : String
  filter_speckle : Int
  color_precision : Int
  layer_difference : Int
  corner_threshold : Int
  length_threshold : Rat
  max_iterations : Int
  splice_threshold : Int
deriving DecidableEq

/-- The extension-to-format dictionary img_format_map in ConversionWorker.run. -/
def img_format_map : List (String × String) :=
  [(".jpg", "jpg"), (".jpeg", "jpg"), (".png", "png"),
   (".bmp", "bmp"), (".gif", "gif"), (".tiff", "tiff")]

/-- img_format_map.get(file_extension, "jpg"): dictionary lookup with default. -/
def imgFormatOf (file_extension : String) : String :=
  (img_format_map.lookup file_extension).getD "jpg"

/-- Python str.lower(), restricted to the ASCII case relevant here. -/
def strLower (s : String) : String := s.map Char.toLower

/-- Index of the last dot in a character list, if any. -/
def lastDotIndex (l : List Char) : Option Nat :=
  ((l.enum.filter (fun pr => pr.2 == '.')).map (fun pr => pr.1)).getLast?

/-- The final path component (pathlib name). -/
def pathName (p : String) : String := (p.splitOn "/").getLastD ""

/-- pathlib Path(p).suffix: the extension of the final component, which is
empty when the name has no dot, starts with its only dot, or ends in a dot. -/
def pathSuffix (p : String) : String :=
  let nm := pathName p
  match lastDotIndex nm.toList with
  | none => ""
  | some i => if 0 < i ∧ i + 1 < nm.toList.length then String.mk (nm.toList.drop i) else ""

/-- ConversionWorker.run: reads the image bytes, derives the format tag from
the lowercased path suffix, calls the conversion library, and emits progress
plus exactly one terminal signal; any exception is caught and emitted as a
single error signal. The fallible read outcome and the library call are
explicit arguments. -/
def ConversionWorker.run (image_path : String) (params : Params)
    (readResult : Except String (List Nat))
    (convert : List Nat → String → Params → Except String String) :
    List WorkerEvent :=
  match readResult with
  | Except.error e =>
      [WorkerEvent.progress 10, WorkerEvent.error ("変換エラー: " ++ e)]
  | Except.ok image_bytes =>
      let img_format := imgFormatOf (strLower (pathSuffix image_path))
      match convert image_bytes img_format params with
      | Except.error e =>
          [WorkerEvent.progress 10, WorkerEvent.progress 30, WorkerEvent.progress 50,
           WorkerEvent.error ("変換エラー: " ++ e)]
      | Except.ok svg_content =>
          [WorkerEvent.progress 10, WorkerEvent.progress 30, WorkerEvent.progress 50,
           WorkerEvent.progress 100, WorkerEvent.finished svg_content]

/-- State of the ParameterControlWidget: the current text of each combo box
and the current integer value of each slider (length_threshold holds the raw
slider value, mapped 35-100 for 3.5-10.0). -/
structure ParameterControlWidget where
  color_mode : String
  hierarchical_mode : String
  curve_mode : String
  filter_speckle : Int
  color_precision : Int
  layer_difference : Int
  corner_threshold : Int
  length_threshold : Int
  splice_threshold : Int
deriving DecidableEq

/-- The invariant Qt enforces on the widget: each combo box holds one of its
items and each slider value lies in the range given to setRange. -/
def ValidWidget (w : ParameterControlWidget) : Prop :=
  (w.color_mode = "Color" ∨ w.color_mode = "B/W") ∧
  (w.hierarchical_mode = "Stacked" ∨ w.hierarchical_mode = "CutOut") ∧
  (w.curve_mode = "Spline" ∨ w.curve_mode = "Polygon" ∨ w.curve_mode = "Pixel") ∧
  0 ≤ w.filter_speckle ∧ w.filter_speckle ≤ 128 ∧
  1 ≤ w.color_precision ∧ w.color_precision ≤ 8 ∧
  0 ≤ w.layer_difference ∧ w.layer_difference ≤ 128 ∧
  0 ≤ w.corner_threshold ∧ w.corner_threshold ≤ 180 ∧
  35 ≤ w.length_threshold ∧ w.length_threshold ≤ 100 ∧
  0 ≤ w.splice_threshold ∧ w.splice_threshold ≤ 180

instance (w : ParameterControlWidget) : Decidable (ValidWidget w) := by
  unfold ValidWidget; infer_instance

/-- The curve-mode dictionary subscript in get_parameters; an unknown key
raises KeyError in Python, modelled as none. -/
def curveModeMap : String → Option String
  | "Spline" => some "spline"
  | "Polygon" => some "polygon"
  | "Pixel" => some "none"
  | _ => none

/-- ParameterControlWidget.get_parameters: builds the parameter dictionary
from the current widget state. The dictionary subscript on the curve mode can
raise, hence the Option result. -/
def ParameterControlWidget.get_parameters (w : ParameterControlWidget) : Option Params :=
  (curveModeMap w.curve_mode).map (fun m =>
    { colormode := if w.color_mode = "Color" then "color" else "binary",
      hierarchical := if w.hierarchical_mode = "Stacked" then "stacked" else "cutout",
      mode := m,
      filter_speckle := w.filter_speckle,
      color_precision := w.color_precision,
      layer_difference := w.layer_difference,
      corner_threshold := w.corner_threshold,
      length_threshold := (w.length_threshold : Rat) / 10,
      max_iterations := 10,
      splice_threshold := w.splice_threshold })

/-- Python truthiness of a str value (empty string is falsy). -/
def pyTruthy (s : String) : Bool := !(s == "")

/-- Python truthiness of an Optional[str] value (None and "" are falsy). -/
def pyTruthyOpt : Option String → Bool
  | none => false
  | some s => pyTruthy s

/-- State of the VTracerGUI main window relevant to the handlers: the stored
paths/content, the in-flight worker handle, and the widget states the handlers
touch. -/
structure VTracerGUI where
  current_image_path : Option String
  current_svg_content : Option String
  conversion_worker : Option (String × Params)
  convert_enabled : Bool
  save_enabled : Bool
  progress_visible : Bool
  progress_value : Int
deriving DecidableEq

/-- The file system as an association list from path to content; a write
prepends, a read takes the most recent entry. -/
abbrev FileSystem := List (String × String)

/-- Writing a file stores its content at the path. -/
def fsWrite (fs : FileSystem) (path content : String) : FileSystem :=
  (path, content) :: fs

/-- Reading a file returns the most recently written content, if any. -/
def fsRead (fs : FileSystem) (path : String) : Option String :=
  List.lookup path fs

/-- VTracerGUI.save_svg: returns immediately when no truthy SVG content is
held; otherwise, when the dialog yields a truthy path and the write succeeds,
writes the held content to that path. Window state is never modified. -/
def VTracerGUI.save_svg (s : VTracerGUI) (fs : FileSystem)
    (dialogPath : String) (writeOk : Bool) : VTracerGUI × FileSystem :=
  if pyTruthyOpt s.current_svg_content then
    if pyTruthy dialogPath then
      if writeOk then (s, fsWrite fs dialogPath (s.current_svg_content.getD ""))
      else (s, fs)
    else (s, fs)
  else (s, fs)

/-- VTracerGUI.convert_image: returns immediately when no truthy image path is
held; otherwise disables the convert button, shows the progress bar at 0, and
starts a worker for the current path and parameter snapshot. -/
def VTracerGUI.convert_image (s : VTracerGUI) (params : Params) : VTracerGUI :=
  if pyTruthyOpt s.current_image_path then
    { s with convert_enabled := false,
             progress_visible := true,
             progress_value := 0,
             conversion_worker := some (s.current_image_path.getD "", params) }
  else s

/-- VTracerGUI.on_conversion_finished: stores the SVG content, re-enables the
convert button, enables the save button, and hides the progress bar. -/
def VTracerGUI.on_conversion_finished (s : VTracerGUI) (svg_content : String) : VTracerGUI :=
  { s with current_svg_content := some svg_content,
           convert_enabled := true,
           save_enabled := true,
           progress_visible := false }

/-- VTracerGUI.on_conversion_error: shows the message dialog, re-enables the
convert button and hides the progress bar; nothing else changes. -/
def VTracerGUI.on_conversion_error (s : VTracerGUI) (_msg : String) : VTracerGUI :=
  { s with convert_enabled := true,
           progress_visible := false }

/-- The widget state at application start: the defaults set in init_ui
(Color, Stacked, Spline, speckle 4, precision 6, gradient step 16, corner 60,
raw segment length 40 for 4.0, splice 45). -/
def wDefault : ParameterControlWidget :=
  ⟨"Color", "Stacked", "Spline", 4, 6, 16, 60, 40, 45⟩

/-- The parameter dictionary produced from the default widget state. -/
def pDefault : Params :=
  ⟨"color", "stacked", "spline", 4, 6, 16, 60, 4, 10, 45⟩

/-- The default widget state after one left-arrow key press (or a drag) on the
segment-length slider: raw value 40 - 4 = 36, well inside the range 35-100. -/
def w36 : ParameterControlWidget :=
  ⟨"Color", "Stacked", "Spline", 4, 6, 16, 60, 36, 45⟩

/-- The parameter dictionary produced from w36: segment length 36 / 10 = 3.6. -/
def p36 : Params :=
  ⟨"color", "stacked", "spline", 4, 6, 16, 60, 18/5, 10, 45⟩

/-- The default widget state with the curve mode combo set to Pixel. -/
def wPixel : ParameterControlWidget :=
  ⟨"Color", "Stacked", "Pixel", 4, 6, 16, 60, 40, 45⟩

/-- The parameter dictionary produced from wPixel. -/
def pPixel : Params :=
  ⟨"color", "stacked", "none", 4, 6, 16, 60, 4, 10, 45⟩

/-- The window state at application start: no image, no SVG content, no
worker, both buttons disabled, progress bar hidden. -/
def sEmpty : VTracerGUI := ⟨none, none, none, false, false, false, 0⟩

/-- A window state holding a successful conversion result. -/
def sHeld : VTracerGUI :=
  ⟨some "in.png", some "<svg></svg>", none, true, true, false, 100⟩

/-- A window state holding an empty success payload (the library returned an
empty string, stored by on_conversion_finished). -/
def sEmptyPayload : VTracerGUI :=
  ⟨some "in.png", some "", none, true, true, false, 100⟩

/-- C1: every run of ConversionWorker.run delivers exactly one terminal event:
a single finished signal or a single error signal, never zero and never both. -/
theorem conversionRun_exactly_one_terminal (image_path : String) (params : Params)
    (readResult : Except String (List Nat))
    (convert : List Nat → String → Params → Except String String) :
    (∃ svg, (ConversionWorker.run image_path params readResult convert).filter
        isTerminalEvent = [WorkerEvent.finished svg]) ∨
    (∃ msg, (ConversionWorker.run image_path params readResult convert).filter
        isTerminalEvent = [WorkerEvent.error msg]) := by
  rcases readResult with e | image_bytes
  · right
    exact ⟨"変換エラー: " ++ e, by simp [ConversionWorker.run, isTerminalEvent, List.filter]⟩
  · rcases h : convert image_bytes (imgFormatOf (strLower (pathSuffix image_path))) params
      with e | svg
    · right
      exact ⟨"変換エラー: " ++ e,
        by simp [ConversionWorker.run, h, isTerminalEvent, List.filter]⟩
    · left
      exact ⟨svg, by simp [ConversionWorker.run, h, isTerminalEvent, List.filter]⟩

/-- C2: the format tag computed from a file suffix follows the fixed mapping
(.jpg and .jpeg to jpg, .png to png, .bmp to bmp, .gif to gif, .tiff to tiff)
and every other suffix yields the default tag jpg. -/
theorem imgFormat_mapping :
    (imgFormatOf ".jpg" = "jpg" ∧ imgFormatOf ".jpeg" = "jpg" ∧
     imgFormatOf ".png" = "png" ∧ imgFormatOf ".bmp" = "bmp" ∧
     imgFormatOf ".gif" = "gif" ∧ imgFormatOf ".tiff" = "tiff") ∧
    ∀ ext : String,
      ¬ (ext = ".jpg" ∨ ext = ".jpeg" ∨ ext = ".png" ∨ ext = ".bmp" ∨
         ext = ".gif" ∨ ext = ".tiff") →
      imgFormatOf ext = "jpg" := by
  constructor
  · exact ⟨rfl, rfl, rfl, rfl, rfl, rfl⟩
  · intro ext h
    push_neg at h
    obtain ⟨h1, h2, h3, h4, h5, h6⟩ := h
    simp [imgFormatOf, img_format_map, List.lookup,
      beq_eq_false_iff_ne.mpr h1, beq_eq_false_iff_ne.mpr h2,
      beq_eq_false_iff_ne.mpr h3, beq_eq_false_iff_ne.mpr h4,
      beq_eq_false_iff_ne.mpr h5, beq_eq_false_iff_ne.mpr h6]

/-- C2 witness: the mapping theorem evaluated at the suffix .png and at the
unrecognized suffix .webp. -/
theorem imgFormat_mapping_witness :
    imgFormatOf ".png" = "png" ∧ imgFormatOf ".webp" = "jpg" :=
  ⟨imgFormat_mapping.1.2.2.1, imgFormat_mapping.2 ".webp" (by decide)⟩

/-- C6: when the image file is unreadable, the run delivers an error event and
no finished event. -/
theorem conversionRun_unreadable_error (image_path : String) (params : Params)
    (e : String) (convert : List Nat → String → Params → Except String String) :
    (∃ msg, WorkerEvent.error msg ∈
        ConversionWorker.run image_path params (Except.error e) convert) ∧
    ∀ svg, WorkerEvent.finished svg ∉
        ConversionWorker.run image_path params (Except.error e) convert := by
  constructor
  · exact ⟨"変換エラー: " ++ e, by simp [ConversionWorker.run]⟩
  · intro svg
    simp [ConversionWorker.run]

/-- C3: every parameter dictionary produced by get_parameters from a valid
widget state has its numeric fields within the declared bounds: speckle in
[0,128], precision in [1,8], gradient step in [0,128], corner in [0,180],
segment length in [3.5,10], splice in [0,180], and max_iterations fixed at 10. -/
theorem get_parameters_bounds (w : ParameterControlWidget) (p : Params)
    (hv : ValidWidget w) (hp : w.get_parameters = some p) :
    0 ≤ p.filter_speckle ∧ p.filter_speckle ≤ 128 ∧
    1 ≤ p.color_precision ∧ p.color_precision ≤ 8 ∧
    0 ≤ p.layer_difference ∧ p.layer_difference ≤ 128 ∧
    0 ≤ p.corner_threshold ∧ p.corner_threshold ≤ 180 ∧
    7/2 ≤ p.length_threshold ∧ p.length_threshold ≤ 10 ∧
    0 ≤ p.splice_threshold ∧ p.splice_threshold ≤ 180 ∧
    p.max_iterations = 10 := by
  obtain ⟨hcm, hhm, hcv, h1, h2, h3, h4, h5, h6, h7, h8, h9, h10, h11, h12⟩ := hv
  obtain ⟨m, hm⟩ : ∃ m, curveModeMap w.curve_mode = some m := by
    rcases hcv with h | h | h <;> rw [h] <;> exact ⟨_, rfl⟩
  simp only [ParameterControlWidget.get_parameters, hm, Option.map_some',
    Option.some.injEq] at hp
  subst hp
  have ha : (35 : Rat) ≤ (w.length_threshold : Rat) := by exact_mod_cast h9
  have hb : (w.length_threshold : Rat) ≤ 100 := by exact_mod_cast h10
  refine ⟨h1, h2, h3, h4, h5, h6, h7, h8, by linarith, by linarith, h11, h12, rfl⟩

/-- C3 witness: the bounds theorem applied to the default widget state and the
parameter dictionary it produces. -/
theorem get_parameters_bounds_witness :
    0 ≤ pDefault.filter_speckle ∧ pDefault.filter_speckle ≤ 128 ∧
    1 ≤ pDefault.color_precision ∧ pDefault.color_precision ≤ 8 ∧
    0 ≤ pDefault.layer_difference ∧ pDefault.layer_difference ≤ 128 ∧
    0 ≤ pDefault.corner_threshold ∧ pDefault.corner_threshold ≤ 180 ∧
    7/2 ≤ pDefault.length_threshold ∧ pDefault.length_threshold ≤ 10 ∧
    0 ≤ pDefault.splice_threshold ∧ pDefault.splice_threshold ≤ 180 ∧
    pDefault.max_iterations = 10 :=
  get_parameters_bounds wDefault pDefault (by decide)
    (by norm_num [wDefault, pDefault, ParameterControlWidget.get_parameters, curveModeMap])

/-- C4: the segment-length slider accepts any raw integer in 35-100 (its
single step is the Qt default 1, and dragging is unconstrained), so the
snapshot value ranges over multiples of 0.1, not 0.5: the valid widget state
w36 yields segment length 3.6, which is not of the form 3.5 + k * 0.5. -/
theorem length_threshold_step_bug :
    ValidWidget w36 ∧
    ParameterControlWidget.get_parameters w36 = some p36 ∧
    ¬ ∃ k : ℕ, p36.length_threshold = 7/2 + k * (1/2) := by
  refine ⟨by decide,
    by norm_num [w36, p36, ParameterControlWidget.get_parameters, curveModeMap], ?_⟩
  rintro ⟨k, hk⟩
  simp only [p36] at hk
  have h1 : ((5 * k : ℕ) : Rat) = 1 := by push_cast; linarith
  have h2 : 5 * k = 1 := by exact_mod_cast h1
  omega

/-- C5 counterexample: with the curve mode combo set to Pixel (a valid
selection), get_parameters encodes the curve mode as "none", not "pixel". -/
theorem pixel_mode_encoded_as_none :
    ValidWidget wPixel ∧ wPixel.curve_mode = "Pixel" ∧
    ParameterControlWidget.get_parameters wPixel = some pPixel ∧
    pPixel.mode = "none" ∧ pPixel.mode ≠ "pixel" :=
  ⟨by decide, rfl,
   by norm_num [wPixel, pPixel, ParameterControlWidget.get_parameters, curveModeMap],
   rfl, by decide⟩

/-- C5 amended: the snapshot encodes the mode selectors as follows: Color to
"color", B/W to "binary", Stacked to "stacked", CutOut to "cutout", Spline to
"spline", Polygon to "polygon", and Pixel to "none". -/
theorem mode_encoding_amended (w : ParameterControlWidget) (p : Params)
    (hv : ValidWidget w) (hp : w.get_parameters = some p) :
    (w.color_mode = "Color" → p.colormode = "color") ∧
    (w.color_mode = "B/W" → p.colormode = "binary") ∧
    (w.hierarchical_mode = "Stacked" → p.hierarchical = "stacked") ∧
    (w.hierarchical_mode = "CutOut" → p.hierarchical = "cutout") ∧
    (w.curve_mode = "Spline" → p.mode = "spline") ∧
    (w.curve_mode = "Polygon" → p.mode = "polygon") ∧
    (w.curve_mode = "Pixel" → p.mode = "none") := by
  obtain ⟨hcm, hhm, hcv, _⟩ := hv
  obtain ⟨m, hm⟩ : ∃ m, curveModeMap w.curve_mode = some m := by
    rcases hcv with h | h | h <;> rw [h] <;> exact ⟨_, rfl⟩
  simp only [ParameterControlWidget.get_parameters, hm, Option.map_some',
    Option.some.injEq] at hp
  subst hp
  refine ⟨fun h => by simp [h], fun h => by simp [h],
          fun h => by simp [h], fun h => by simp [h], ?_, ?_, ?_⟩
  · intro h
    rw [h] at hm
    rw [show curveModeMap "Spline" = some "spline" from rfl] at hm
    exact (Option.some.inj hm).symm
  · intro h
    rw [h] at hm
    rw [show curveModeMap "Polygon" = some "polygon" from rfl] at hm
    exact (Option.some.inj hm).symm
  · intro h
    rw [h] at hm
    rw [show curveModeMap "Pixel" = some "none" from rfl] at hm
    exact (Option.some.inj hm).symm

/-- C5 witness: the amended encoding theorem applied to the default widget
state and the parameter dictionary it produces. -/
theorem mode_encoding_amended_witness :
    (wDefault.color_mode = "Color" → pDefault.colormode = "color") ∧
    (wDefault.color_mode = "B/W" → pDefault.colormode = "binary") ∧
    (wDefault.hierarchical_mode = "Stacked" → pDefault.hierarchical = "stacked") ∧
    (wDefault.hierarchical_mode = "CutOut" → pDefault.hierarchical = "cutout") ∧
    (wDefault.curve_mode = "Spline" → pDefault.mode = "spline") ∧
    (wDefault.curve_mode = "Polygon" → pDefault.mode = "polygon") ∧
    (wDefault.curve_mode = "Pixel" → pDefault.mode = "none") :=
  mode_encoding_amended wDefault pDefault (by decide)
    (by norm_num [wDefault, pDefault, ParameterControlWidget.get_parameters, curveModeMap])

/-- C7: save_svg with no held SVG content is a no-op: the window state and the
file system are returned unchanged, whatever the dialog and write outcomes. -/
theorem save_svg_noop_when_unset (s : VTracerGUI) (fs : FileSystem)
    (dialogPath : String) (writeOk : Bool) (h : s.current_svg_content = none) :
    s.save_svg fs dialogPath writeOk = (s, fs) := by
  simp [VTracerGUI.save_svg, pyTruthyOpt, h]

/-- C7 witness: the no-op theorem applied to the start-up window state, an
empty file system, and a concrete dialog path. -/
theorem save_svg_noop_when_unset_witness :
    VTracerGUI.save_svg sEmpty [] "out.svg" true = (sEmpty, []) :=
  save_svg_noop_when_unset sEmpty [] "out.svg" true (by decide)

/-- C8 counterexample: with the empty string as held success payload, save_svg
returns without writing (Python truthiness treats "" as absent), so reading
the chosen path back yields nothing rather than the payload. -/
theorem save_svg_empty_payload_no_roundtrip :
    sEmptyPayload.current_svg_content = some "" ∧
    VTracerGUI.save_svg sEmptyPayload [] "out.svg" true = (sEmptyPayload, []) ∧
    fsRead (VTracerGUI.save_svg sEmptyPayload [] "out.svg" true).2 "out.svg" = none :=
  ⟨rfl, by decide, by decide⟩

/-- C8 amended: for every non-empty success payload held in the window state,
saving to a chosen path with a successful write and reading that path back
yields exactly the payload. -/
theorem save_svg_roundtrip (s : VTracerGUI) (fs : FileSystem)
    (c dialogPath : String) (hc : c ≠ "") (hs : s.current_svg_content = some c)
    (hd : dialogPath ≠ "") :
    fsRead (s.save_svg fs dialogPath true).2 dialogPath = some c := by
  simp [VTracerGUI.save_svg, pyTruthyOpt, pyTruthy, hs, hc, hd, fsWrite, fsRead,
    List.lookup]

/-- C8 witness: the round-trip theorem applied to a state holding a concrete
SVG document, an empty file system, and a concrete save path. -/
theorem save_svg_roundtrip_witness :
    fsRead (VTracerGUI.save_svg sHeld [] "out.svg" true).2 "out.svg" =
      some "<svg></svg>" :=
  save_svg_roundtrip sHeld [] "<svg></svg>" "out.svg" (by decide) (by decide) (by decide)

/-- C9: convert_image with no held image path is a no-op: the window state is
returned unchanged, so no worker is started, the button states, progress-bar
visibility and progress value stay as they were. -/
theorem convert_image_noop_when_no_image (s : VTracerGUI) (params : Params)
    (h : s.current_image_path = none) :
    s.convert_image params = s := by
  simp [VTracerGUI.convert_image, pyTruthyOpt, h]

/-- C9 witness: the no-op theorem applied to the start-up window state and the
default parameter dictionary. -/
theorem convert_image_noop_when_no_image_witness :
    VTracerGUI.convert_image sEmpty pDefault = sEmpty :=
  convert_image_noop_when_no_image sEmpty pDefault (by decide)

/-- C10: on_conversion_error leaves the stored SVG content and the save
button's enabled state unchanged; in particular, after a successful conversion
followed by a failed one, the earlier result is still held and saveable. -/
theorem conversion_error_preserves_result (s : VTracerGUI) (msg svg : String) :
    ((s.on_conversion_error msg).current_svg_content = s.current_svg_content ∧
     (s.on_conversion_error msg).save_enabled = s.save_enabled) ∧
    (((s.on_conversion_finished svg).on_conversion_error msg).current_svg_content
        = some svg ∧
     ((s.on_conversion_finished svg).on_conversion_error msg).save_enabled = true) :=
  ⟨⟨rfl, rfl⟩, rfl, rfl⟩
